import Mathlib

/-!
Verification of the lora-dataset-builder repository against its design
specification.

Two source files are embedded:
 - src/docker/app/florence_api.py : the captioning HTTP service
   (health probe, image decode, tensor device/precision alignment,
   generation call, post-processing);
 - src/review_ui.py : the caption review tool (record loading,
   JSON/CSV persistence, index clamping, navigation).

Python dictionaries of tensors are embedded as association lists
(key order preserved, as in Python 3.7+ dicts); external collaborators
(PIL decoding, the HuggingFace processor and model) are parameters of
the pipeline, and the pipeline records every call it makes to them in
an explicit trace, so that claims about what is and is not invoked,
and with which arguments, are provable.
-/

namespace Florence

/-- Element kind of a torch tensor, as far as the alignment pass observes
it: torch.is_floating_point distinguishes floating dtypes from the rest. -/
inductive Dtype
  | float16
  | float32
  | float64
  | int64
  | int32
  | boolKind
  deriving Repr, DecidableEq

/-- Embeds torch.is_floating_point. -/
def Dtype.isFloatingPoint : Dtype → Bool
  | .float16 => true
  | .float32 => true
  | .float64 => true
  | _ => false

/-- A tensor as the service observes it: a device tag, an element kind and
opaque contents. -/
structure Tensor where
  device : String
  dtype : Dtype
  data : List Int
  deriving Repr, DecidableEq

/-- Embeds value.to(device=DEVICE, dtype=DTYPE): moves and casts, contents
kept. -/
def Tensor.toDeviceDtype (t : Tensor) (device : String) (dtype : Dtype) : Tensor :=
  { t with device := device, dtype := dtype }

/-- Embeds value.to(device=DEVICE): moves only, dtype and contents kept. -/
def Tensor.toDevice (t : Tensor) (device : String) : Tensor :=
  { t with device := device }

/-- Startup configuration of the process: the FLORENCE_MODEL_ID environment
variable (None when unset) and whether torch.cuda.is_available(). -/
structure Config where
  florenceModelIdEnv : Option String
  cudaAvailable : Bool
  deriving Repr, DecidableEq

/-- Embeds MODEL_ID = os.getenv("FLORENCE_MODEL_ID", "microsoft/Florence-2-base").
os.getenv returns the value of the variable, the empty string included, and
the default only when the variable is unset. -/
def MODEL_ID (env : Option String) : String :=
  env.getD "microsoft/Florence-2-base"

/-- Embeds DEVICE = "cuda" if torch.cuda.is_available() else "cpu". -/
def DEVICE (cudaAvailable : Bool) : String :=
  if cudaAvailable then "cuda" else "cpu"

/-- Embeds DTYPE = torch.float16 if DEVICE == "cuda" else torch.float32. -/
def DTYPE (cudaAvailable : Bool) : Dtype :=
  if cudaAvailable then .float16 else .float32

/-- Embeds DEFAULT_TASK = "<CAPTION>". -/
def DEFAULT_TASK : String := "<CAPTION>"

/-- The resident model: loaded once with torch_dtype=DTYPE and moved to
DEVICE, so its identifier, device and precision are those of the
configuration. -/
structure ModelHandle where
  model_id : String
  device : String
  dtype : Dtype
  deriving Repr, DecidableEq

/-- Embeds the module-level model load:
AutoModelForCausalLM.from_pretrained(MODEL_ID, torch_dtype=DTYPE).to(DEVICE). -/
def loadModel (cfg : Config) : ModelHandle :=
  { model_id := MODEL_ID cfg.florenceModelIdEnv
    device := DEVICE cfg.cudaAvailable
    dtype := DTYPE cfg.cudaAvailable }

/-- Embeds the alignment loop of caption (florence_api.py lines 38-45):
for key, value in inputs.items():
    if torch.is_floating_point(value): cast_inputs[key] = value.to(device=DEVICE, dtype=DTYPE)
    else: cast_inputs[key] = value.to(device=DEVICE)
The dict is an association list in insertion order, so the loop is a map. -/
def castInputs (device : String) (dtype : Dtype)
    (inputs : List (String × Tensor)) : List (String × Tensor) :=
  inputs.map fun kv =>
    if kv.2.dtype.isFloatingPoint then (kv.1, kv.2.toDeviceDtype device dtype)
    else (kv.1, kv.2.toDevice device)

/-- An in-memory RGB raster as the service observes it: its pixel
dimensions. -/
structure Image where
  width : Nat
  height : Nat
  deriving Repr, DecidableEq

/-- Embeds PIL image.size, which is the pair (width, height). -/
def Image.size (im : Image) : Nat × Nat := (im.width, im.height)

/-- The task-shaped result returned by processor.post_process_generation:
plain text for caption tasks, region/label data for detection-style
tasks. -/
inductive CaptionResult
  | text (s : String)
  | regions (rs : List ((Nat × Nat × Nat × Nat) × String))
  deriving Repr, DecidableEq

/-- The keyword arguments of the model.generate call in caption:
model.generate(input_ids=..., pixel_values=..., max_new_tokens=256,
do_sample=False, num_beams=3). -/
structure GenArgs where
  input_ids : Tensor
  pixel_values : Tensor
  max_new_tokens : Nat
  do_sample : Bool
  num_beams : Nat
  deriving Repr, DecidableEq

/-- The external collaborators of the pipeline: PIL decoding, the
tensorization done by the processor, the generation procedure of the
model, and the decoding and task-aware parsing of the processor. Each is
an opaque function; the pipeline only wires them. -/
structure Engine where
  decodeRGB : List Nat → Except String Image
  processInputs : String → Image → List (String × Tensor)
  generate : GenArgs → List (List Nat)
  batchDecode : List (List Nat) → Bool → List String
  postProcessGeneration : String → String → Nat × Nat → CaptionResult

/-- One external call made by the caption endpoint, with the exact
arguments it was given; the pipeline emits these in order. -/
inductive Call
  | decodeImage (bytes : List Nat)
  | processInputs (text : String) (image : Image)
  | generate (args : GenArgs)
  | batchDecode (ids : List (List Nat)) (skip_special_tokens : Bool)
  | postProcessGeneration (text : String) (task : String) (image_size : Nat × Nat)
  deriving Repr, DecidableEq

/-- Holds exactly when the call is an invocation of model.generate. -/
def Call.isGenerate : Call → Bool
  | .generate _ => true
  | _ => false

/-- The success body of the caption endpoint. -/
structure CaptionResponse where
  model_id : String
  task : String
  result : CaptionResult
  deriving Repr, DecidableEq

/-- Outcome of one caption request: a JSON body, or an HTTP error status
with a detail string (400 raised explicitly, 500 for an uncaught
exception). -/
inductive CaptionOutcome
  | ok (resp : CaptionResponse)
  | httpError (status : Nat) (detail : String)
  deriving Repr, DecidableEq

/-- Embeds dict key lookup inputs[key] on the association list (keys are
unique in a Python dict, so the first match is the match). -/
def lookupKey (bundle : List (String × Tensor)) (key : String) : Option Tensor :=
  (bundle.find? fun kv => kv.1 = key).map Prod.snd

/-- The body returned by the health endpoint. -/
structure HealthResponse where
  status : String
  model_id : String
  device : String
  deriving Repr, DecidableEq

/-- Embeds the health endpoint:
return dict with status "ok", model_id MODEL_ID, device DEVICE. -/
def health (cfg : Config) : HealthResponse :=
  { status := "ok"
    model_id := MODEL_ID cfg.florenceModelIdEnv
    device := DEVICE cfg.cudaAvailable }

/-- Embeds the caption endpoint (florence_api.py lines 29-62).
The try block decodes the upload and turns any exception into
HTTPException(400, "Invalid image: " + message); then the processor is
invoked, the alignment pass runs, model.generate is called with the two
named tensors and the fixed parameters, the batch is decoded without
stripping special tokens, element 0 is parsed by
processor.post_process_generation with the task and image.size, and the
response carries MODEL_ID, the (defaulted) task and the parsed result.
A missing dict key or an empty batch would raise in Python and surface
as an uncaught-exception 500. Returns the outcome and the trace of
external calls made. -/
def caption (eng : Engine) (cfg : Config) (fileBytes : List Nat)
    (taskField : Option String) : CaptionOutcome × List Call :=
  let task := taskField.getD DEFAULT_TASK
  match eng.decodeRGB fileBytes with
  | .error msg =>
      (.httpError 400 ("Invalid image: " ++ msg), [.decodeImage fileBytes])
  | .ok image =>
      let inputs := eng.processInputs task image
      let cast := castInputs (DEVICE cfg.cudaAvailable) (DTYPE cfg.cudaAvailable) inputs
      match lookupKey cast "input_ids", lookupKey cast "pixel_values" with
      | some ii, some pv =>
          let args : GenArgs :=
            { input_ids := ii, pixel_values := pv
              max_new_tokens := 256, do_sample := false, num_beams := 3 }
          let generated_ids := eng.generate args
          match (eng.batchDecode generated_ids false).head? with
          | some generated_text =>
              let parsed := eng.postProcessGeneration generated_text task image.size
              (.ok { model_id := MODEL_ID cfg.florenceModelIdEnv
                     task := task, result := parsed },
               [.decodeImage fileBytes, .processInputs task image,
                .generate args, .batchDecode generated_ids false,
                .postProcessGeneration generated_text task image.size])
          | none =>
              (.httpError 500 "list index out of range",
               [.decodeImage fileBytes, .processInputs task image,
                .generate args, .batchDecode generated_ids false])
      | _, _ =>
          (.httpError 500 "missing required tensor key",
           [.decodeImage fileBytes, .processInputs task image])

/-- A concrete image used to instantiate the pipeline theorems. -/
def sampleImage : Image := { width := 4, height := 3 }

/-- A three-key processor bundle with one floating-point array, mirroring
the shape of a Florence-2 processor output. -/
def sampleBundle : List (String × Tensor) :=
  [("input_ids", { device := "cpu", dtype := .int64, data := [1, 2] }),
   ("attention_mask", { device := "cpu", dtype := .int64, data := [1, 1] }),
   ("pixel_values", { device := "cpu", dtype := .float32, data := [5, 6] })]

/-- A concrete engine: decoding fails on the empty upload and succeeds
elsewhere, the processor emits the small three-key bundle, and generation
yields one sequence. -/
def sampleEngine : Engine :=
  { decodeRGB := fun bytes =>
      if bytes = [] then .error "cannot identify image file" else .ok sampleImage
    processInputs := fun _ _ => sampleBundle
    generate := fun _ => [[7, 8, 9]]
    batchDecode := fun ids _ => ids.map fun s => String.intercalate " " (s.map toString)
    postProcessGeneration := fun text _ _ => .text text }

/-- A configuration with CUDA absent and the model-id variable unset. -/
def sampleConfig : Config := { florenceModelIdEnv := none, cudaAvailable := false }

/-- The response the concrete engine yields on a one-byte upload. -/
def sampleResponse : CaptionResponse :=
  { model_id := "microsoft/Florence-2-base"
    task := "<CAPTION>"
    result := .text "7 8 9" }

end Florence

namespace ReviewUI

/-- One caption record of the JSON artifact. Every field is optional
because the review tool reads arbitrary JSON objects and uses dict.get and
dict.setdefault; a missing key is None here. -/
structure Record where
  image : Option String
  raw_caption : Option String
  final_caption : Option String
  deriving Repr, DecidableEq

/-- Embeds the per-item key defaulting in load_captions:
item.setdefault("raw_caption", "");
item.setdefault("final_caption", item.get("raw_caption", "")).
The second setdefault runs after the first, so its fallback is the
already-present raw_caption value. -/
def loadItem (r : Record) : Record :=
  let raw := r.raw_caption.getD ""
  { image := r.image
    raw_caption := some raw
    final_caption := some (r.final_caption.getD raw) }

/-- Embeds load_captions on an already-parsed JSON array. -/
def load_captions (data : List Record) : List Record :=
  data.map loadItem

/-- The header row written by csv.DictWriter with
fieldnames=["image", "raw_caption", "final_caption"]. -/
def csvHeader : List String := ["image", "raw_caption", "final_caption"]

/-- One CSV data row: writer.writerow over row.get of the three fields, in
the fieldnames order. -/
def csvRow (r : Record) : List String :=
  [r.image.getD "", r.raw_caption.getD "", r.final_caption.getD ""]

/-- Embeds save_files: json.dump writes the full record list, and the CSV
file receives the header row followed by one three-column row per record.
The value returned is the pair (JSON contents, CSV rows) written. -/
def save_files (data : List Record) : List Record × List (List String) :=
  (data, csvHeader :: data.map csvRow)

/-- Embeds clamp_index: 0 when the list is empty, else
max(0, min(idx, length - 1)). Python integers are unbounded, so the index
is an Int. -/
def clamp_index (idx : Int) (length : Nat) : Int :=
  if length = 0 then 0 else max 0 (min idx ((length : Int) - 1))

/-- Embeds get_record: (None, 0) on an empty dataset, otherwise the record
at the clamped index together with that index. -/
def get_record (data : List Record) (idx : Int) : Option Record × Int :=
  if data = [] then (none, 0)
  else
    let i := clamp_index idx data.length
    (data.get? i.toNat, i)

/-- Embeds the aliased in-place assignment of the stripped caption text,
rec["final_caption"] = caption_text.strip(), performed by nav on DATA[i]:
the record list with the record at position i so updated. -/
def setFinalCaption (data : List Record) (i : Nat) (text : String) : List Record :=
  match data.get? i with
  | some r => data.set i { r with final_caption := some text.trim }
  | none => data

/-- The five navigation directions of the review tool. -/
inductive Direction
  | first
  | prev
  | next
  | last
  | endSession
  deriving Repr, DecidableEq

/-- What one nav call leaves behind: the dataset after the in-place edit,
the index stored back into the UI state, and the pair of files written
(none when the dataset was empty and nothing was saved). -/
structure NavResult where
  data : List Record
  idx : Int
  saved : Option (List Record × List (List String))
  deriving Repr, DecidableEq

/-- Embeds nav (review_ui.py lines 94-155). On an empty dataset nothing is
edited or saved and the index is returned unchanged. Otherwise the current
record (at the clamped incoming index) takes the stripped caption text,
save_files writes both files, and only then is the index moved: next and
prev clamp the neighbouring index, first jumps to 0, last to length - 1,
and end keeps the current index (its final get_record call re-clamps the
unchanged index). -/
def nav (direction : Direction) (caption_text : String) (idx : Int)
    (data : List Record) : NavResult :=
  if data = [] then { data := data, idx := idx, saved := none }
  else
    let i := (get_record data idx).2.toNat
    let d2 := setFinalCaption data i caption_text
    let files := save_files d2
    let idx2 : Int :=
      match direction with
      | .next => clamp_index ((i : Int) + 1) d2.length
      | .prev => clamp_index ((i : Int) - 1) d2.length
      | .first => 0
      | .last => (d2.length : Int) - 1
      | .endSession => clamp_index (i : Int) d2.length
    { data := d2, idx := idx2, saved := some files }

/-- A two-record dataset used to instantiate the review-tool theorems. -/
def sampleData : List Record :=
  [{ image := some "a.png", raw_caption := some "raw a", final_caption := some "old a" },
   { image := some "b.png", raw_caption := some "raw b", final_caption := some "old b" }]

end ReviewUI

namespace Florence

/-- Claim C1: the alignment pass visits every key of the processor bundle
exactly once and fabricates no new keys (the output key list equals the
input key list, multiplicity and order included), and entrywise every
floating-point array is rewritten to the device and precision of the
resident model while every other array is moved to the device of the model
with its element kind preserved; contents are never changed. -/
theorem alignment_pass_correct (cfg : Config) (inputs : List (String × Tensor)) :
    (castInputs (DEVICE cfg.cudaAvailable) (DTYPE cfg.cudaAvailable) inputs).map Prod.fst
      = inputs.map Prod.fst
    ∧ ∀ p ∈ (castInputs (DEVICE cfg.cudaAvailable) (DTYPE cfg.cudaAvailable) inputs).zip inputs,
        p.1.1 = p.2.1
        ∧ (p.2.2.dtype.isFloatingPoint = true →
            p.1.2.device = (loadModel cfg).device ∧ p.1.2.dtype = (loadModel cfg).dtype)
        ∧ (p.2.2.dtype.isFloatingPoint = false →
            p.1.2.device = (loadModel cfg).device ∧ p.1.2.dtype = p.2.2.dtype)
        ∧ p.1.2.data = p.2.2.data := by
  constructor
  · induction inputs with
    | nil => rfl
    | cons kv rest ih =>
      simp only [castInputs, List.map_cons] at ih ⊢
      by_cases h : kv.2.dtype.isFloatingPoint
      · simp [h, ih]
      · simp [h, ih]
  · intro p hp
    induction inputs with
    | nil => simp [castInputs] at hp
    | cons kv rest ih =>
      simp only [castInputs, List.map_cons, List.zip_cons_cons, List.mem_cons] at hp
      rcases hp with hp | hp
      · subst hp
        by_cases h : kv.2.dtype.isFloatingPoint
        · simp [h, Tensor.toDeviceDtype, loadModel]
        · simp [h, Tensor.toDevice, loadModel]
      · exact ih hp

/-- Witness for C1 at the concrete configuration and bundle. -/
theorem alignment_pass_correct_witness :
    (castInputs (DEVICE sampleConfig.cudaAvailable) (DTYPE sampleConfig.cudaAvailable)
        sampleBundle).map Prod.fst
      = sampleBundle.map Prod.fst
    ∧ ∀ p ∈ (castInputs (DEVICE sampleConfig.cudaAvailable)
          (DTYPE sampleConfig.cudaAvailable) sampleBundle).zip sampleBundle,
        p.1.1 = p.2.1
        ∧ (p.2.2.dtype.isFloatingPoint = true →
            p.1.2.device = (loadModel sampleConfig).device
            ∧ p.1.2.dtype = (loadModel sampleConfig).dtype)
        ∧ (p.2.2.dtype.isFloatingPoint = false →
            p.1.2.device = (loadModel sampleConfig).device
            ∧ p.1.2.dtype = p.2.2.dtype)
        ∧ p.1.2.data = p.2.2.data :=
  alignment_pass_correct sampleConfig sampleBundle

/-- Claim C2: when decoding the uploaded bytes fails with any decoder
error, caption answers HTTP 400 with the original failure message carried
in the detail, uniformly for every error message, and the trace shows that
neither the tensorizer nor the generator was ever invoked. -/
theorem caption_invalid_image (eng : Engine) (cfg : Config) (bytes : List Nat)
    (taskField : Option String) (msg : String)
    (h : eng.decodeRGB bytes = .error msg) :
    caption eng cfg bytes taskField
      = (.httpError 400 ("Invalid image: " ++ msg), [Call.decodeImage bytes])
    ∧ (∀ t im, Call.processInputs t im ∉ (caption eng cfg bytes taskField).2)
    ∧ (∀ args, Call.generate args ∉ (caption eng cfg bytes taskField).2) := by
  refine ⟨?_, ?_, ?_⟩ <;> simp [caption, h]

/-- Witness for C2 at the concrete engine and the empty upload. -/
theorem caption_invalid_image_witness :
    caption sampleEngine sampleConfig [] none
      = (.httpError 400 ("Invalid image: " ++ "cannot identify image file"),
         [Call.decodeImage []])
    ∧ (∀ t im, Call.processInputs t im ∉ (caption sampleEngine sampleConfig [] none).2)
    ∧ (∀ args, Call.generate args ∉ (caption sampleEngine sampleConfig [] none).2) :=
  caption_invalid_image sampleEngine sampleConfig [] none "cannot identify image file" rfl

/-- Claim C3: whenever a request reaches generation, the trace contains
exactly one invocation of model.generate, and its arguments are exactly the
token-id tensor and the pixel-value tensor looked up in the aligned bundle
together with max_new_tokens 256, do_sample false and num_beams 3; on
success the result is built from exactly one output sequence, the first of
the returned batch. -/
theorem caption_generation_contract (eng : Engine) (cfg : Config)
    (bytes : List Nat) (taskField : Option String) (image : Image) (ii pv : Tensor)
    (hdec : eng.decodeRGB bytes = .ok image)
    (hii : lookupKey (castInputs (DEVICE cfg.cudaAvailable) (DTYPE cfg.cudaAvailable)
             (eng.processInputs (taskField.getD DEFAULT_TASK) image)) "input_ids" = some ii)
    (hpv : lookupKey (castInputs (DEVICE cfg.cudaAvailable) (DTYPE cfg.cudaAvailable)
             (eng.processInputs (taskField.getD DEFAULT_TASK) image)) "pixel_values" = some pv) :
    ((caption eng cfg bytes taskField).2.filter Call.isGenerate
      = [Call.generate { input_ids := ii, pixel_values := pv
                         max_new_tokens := 256, do_sample := false, num_beams := 3 }])
    ∧ (∀ resp, (caption eng cfg bytes taskField).1 = .ok resp →
        ∃ text,
          (eng.batchDecode
            (eng.generate { input_ids := ii, pixel_values := pv
                            max_new_tokens := 256, do_sample := false, num_beams := 3 })
            false).head? = some text
          ∧ resp.result
              = eng.postProcessGeneration text (taskField.getD DEFAULT_TASK) image.size) := by
  constructor
  · simp only [caption, hdec, hii, hpv]
    split <;> simp [Call.isGenerate]
  · intro resp hresp
    simp only [caption, hdec, hii, hpv] at hresp
    split at hresp
    · next text htext =>
        refine ⟨text, htext, ?_⟩
        simp only [CaptionOutcome.ok.injEq] at hresp
        rw [← hresp]
    · simp at hresp

/-- Witness for C3 at the concrete engine on a one-byte upload. -/
theorem caption_generation_contract_witness :
    ((caption sampleEngine sampleConfig [1] none).2.filter Call.isGenerate
      = [Call.generate { input_ids := { device := "cpu", dtype := .int64, data := [1, 2] }
                         pixel_values := { device := "cpu", dtype := .float32, data := [5, 6] }
                         max_new_tokens := 256, do_sample := false, num_beams := 3 }])
    ∧ (∀ resp, (caption sampleEngine sampleConfig [1] none).1 = .ok resp →
        ∃ text,
          (sampleEngine.batchDecode
            (sampleEngine.generate
              { input_ids := { device := "cpu", dtype := .int64, data := [1, 2] }
                pixel_values := { device := "cpu", dtype := .float32, data := [5, 6] }
                max_new_tokens := 256, do_sample := false, num_beams := 3 })
            false).head? = some text
          ∧ resp.result
              = sampleEngine.postProcessGeneration text
                  ((none : Option String).getD DEFAULT_TASK) sampleImage.size) :=
  caption_generation_contract sampleEngine sampleConfig [1] none sampleImage _ _ rfl rfl rfl

/-- Counterexample to claim C4 as stated: with an accelerator available and
FLORENCE_MODEL_ID set to the empty string, health answers with device
"cuda" — which is neither the string "cpu" nor the string "gpu" — and with
an empty model identifier. -/
theorem health_claim_counterexample :
    (health { florenceModelIdEnv := some "", cudaAvailable := true }).device = "cuda"
    ∧ ("cuda" : String) ≠ "gpu"
    ∧ ("cuda" : String) ≠ "cpu"
    ∧ (health { florenceModelIdEnv := some "", cudaAvailable := true }).model_id = "" := by
  refine ⟨rfl, by decide, by decide, rfl⟩

/-- Claim C4 (amended): every invocation of health succeeds with status
"ok"; the device field is the string "cpu" or the string "cuda" (the code
uses the torch device tag "cuda", not "gpu"); and the model identifier is
non-empty whenever FLORENCE_MODEL_ID is unset or set to a non-empty string
(os.getenv falls back to the non-empty default only when the variable is
unset). -/
theorem health_always_ok (cfg : Config)
    (h : cfg.florenceModelIdEnv = none
          ∨ ∃ s, cfg.florenceModelIdEnv = some s ∧ s ≠ "") :
    (health cfg).status = "ok"
    ∧ (health cfg).model_id ≠ ""
    ∧ ((health cfg).device = "cpu" ∨ (health cfg).device = "cuda") := by
  refine ⟨rfl, ?_, ?_⟩
  · rcases h with h | ⟨s, hs, hne⟩
    · simp [health, MODEL_ID, h]
    · simpa [health, MODEL_ID, hs] using hne
  · cases hcuda : cfg.cudaAvailable <;> simp [health, DEVICE, hcuda]

/-- Witness for C4 at the default configuration. -/
theorem health_always_ok_witness :
    (health sampleConfig).status = "ok"
    ∧ (health sampleConfig).model_id ≠ ""
    ∧ ((health sampleConfig).device = "cpu" ∨ (health sampleConfig).device = "cuda") :=
  health_always_ok sampleConfig (Or.inl rfl)

/-- Claim C6: every successful caption response carries the loaded model
identifier, the task string exactly as supplied — defaulted to "<CAPTION>"
when the field was omitted — and the parsed result produced by the
post-processor for that task. -/
theorem caption_success_shape (eng : Engine) (cfg : Config) (bytes : List Nat)
    (taskField : Option String) (resp : CaptionResponse)
    (h : (caption eng cfg bytes taskField).1 = .ok resp) :
    resp.model_id = MODEL_ID cfg.florenceModelIdEnv
    ∧ resp.task = taskField.getD "<CAPTION>"
    ∧ ∃ image text, eng.decodeRGB bytes = .ok image
        ∧ resp.result
            = eng.postProcessGeneration text (taskField.getD "<CAPTION>") image.size := by
  cases hdec : eng.decodeRGB bytes with
  | error msg => simp [caption, hdec] at h
  | ok image =>
    cases hii : lookupKey (castInputs (DEVICE cfg.cudaAvailable) (DTYPE cfg.cudaAvailable)
        (eng.processInputs (taskField.getD DEFAULT_TASK) image)) "input_ids" with
    | none => simp [caption, hdec, hii] at h
    | some ii =>
      cases hpv : lookupKey (castInputs (DEVICE cfg.cudaAvailable) (DTYPE cfg.cudaAvailable)
          (eng.processInputs (taskField.getD DEFAULT_TASK) image)) "pixel_values" with
      | none => simp [caption, hdec, hii, hpv] at h
      | some pv =>
        simp only [caption, hdec, hii, hpv] at h
        split at h
        · next text htext =>
            simp only [CaptionOutcome.ok.injEq] at h
            subst h
            exact ⟨rfl, rfl, image, text, rfl, rfl⟩
        · simp at h

/-- Witness for C6 at the concrete engine on a one-byte upload. -/
theorem caption_success_shape_witness :
    sampleResponse.model_id = MODEL_ID sampleConfig.florenceModelIdEnv
    ∧ sampleResponse.task = (none : Option String).getD "<CAPTION>"
    ∧ ∃ image text, sampleEngine.decodeRGB [1] = .ok image
        ∧ sampleResponse.result
            = sampleEngine.postProcessGeneration text
                ((none : Option String).getD "<CAPTION>") image.size :=
  caption_success_shape sampleEngine sampleConfig [1] none sampleResponse rfl

/-- Claim C7: on the success path the generated batch is decoded with
skip_special_tokens set to false (no control tokens stripped), and exactly
that raw decoded text, the task string of the request — passed through
without any validation, whatever it is — and the pixel dimensions of the
original image are handed to the external parser, whose output becomes the
result field of the response. -/
theorem caption_postprocess_raw (eng : Engine) (cfg : Config) (bytes : List Nat)
    (taskField : Option String) (image : Image) (ii pv : Tensor) (text : String)
    (hdec : eng.decodeRGB bytes = .ok image)
    (hii : lookupKey (castInputs (DEVICE cfg.cudaAvailable) (DTYPE cfg.cudaAvailable)
             (eng.processInputs (taskField.getD DEFAULT_TASK) image)) "input_ids" = some ii)
    (hpv : lookupKey (castInputs (DEVICE cfg.cudaAvailable) (DTYPE cfg.cudaAvailable)
             (eng.processInputs (taskField.getD DEFAULT_TASK) image)) "pixel_values" = some pv)
    (hhead : (eng.batchDecode
        (eng.generate { input_ids := ii, pixel_values := pv
                        max_new_tokens := 256, do_sample := false, num_beams := 3 })
        false).head? = some text) :
    caption eng cfg bytes taskField
      = (.ok { model_id := MODEL_ID cfg.florenceModelIdEnv
               task := taskField.getD DEFAULT_TASK
               result := eng.postProcessGeneration text (taskField.getD DEFAULT_TASK)
                           (image.width, image.height) },
         [.decodeImage bytes,
          .processInputs (taskField.getD DEFAULT_TASK) image,
          .generate { input_ids := ii, pixel_values := pv
                      max_new_tokens := 256, do_sample := false, num_beams := 3 },
          .batchDecode
            (eng.generate { input_ids := ii, pixel_values := pv
                            max_new_tokens := 256, do_sample := false, num_beams := 3 })
            false,
          .postProcessGeneration text (taskField.getD DEFAULT_TASK)
            (image.width, image.height)]) := by
  simp only [caption, hdec, hii, hpv, hhead, Image.size]

/-- Witness for C7 at the concrete engine on a one-byte upload. -/
theorem caption_postprocess_raw_witness :
    caption sampleEngine sampleConfig [1] none
      = (.ok { model_id := MODEL_ID sampleConfig.florenceModelIdEnv
               task := (none : Option String).getD DEFAULT_TASK
               result := sampleEngine.postProcessGeneration "7 8 9"
                           ((none : Option String).getD DEFAULT_TASK)
                           (sampleImage.width, sampleImage.height) },
         [.decodeImage [1],
          .processInputs ((none : Option String).getD DEFAULT_TASK) sampleImage,
          .generate { input_ids := { device := "cpu", dtype := .int64, data := [1, 2] }
                      pixel_values := { device := "cpu", dtype := .float32, data := [5, 6] }
                      max_new_tokens := 256, do_sample := false, num_beams := 3 },
          .batchDecode
            (sampleEngine.generate
              { input_ids := { device := "cpu", dtype := .int64, data := [1, 2] }
                pixel_values := { device := "cpu", dtype := .float32, data := [5, 6] }
                max_new_tokens := 256, do_sample := false, num_beams := 3 })
            false,
          .postProcessGeneration "7 8 9" ((none : Option String).getD DEFAULT_TASK)
            (sampleImage.width, sampleImage.height)]) :=
  caption_postprocess_raw sampleEngine sampleConfig [1] none sampleImage _ _ "7 8 9"
    rfl rfl rfl rfl

end Florence

namespace ReviewUI

theorem setFinalCaption_length (data : List Record) (i : Nat) (text : String) :
    (setFinalCaption data i text).length = data.length := by
  unfold setFinalCaption
  split <;> simp

theorem map_set_eq_of_apply_eq {β : Type} (l : List Record) (i : Nat) (a : Record)
    (f : Record → β) (h : ∀ b, l.get? i = some b → f a = f b) :
    (l.set i a).map f = l.map f := by
  induction l generalizing i with
  | nil => rfl
  | cons x xs ih =>
    cases i with
    | zero =>
      simp only [List.set, List.map_cons, List.cons.injEq]
      exact ⟨h x rfl, trivial⟩
    | succ n =>
      simp only [List.set, List.map_cons, List.cons.injEq]
      exact ⟨trivial, ih n fun b hb => h b hb⟩

theorem setFinalCaption_map {β : Type} (f : Record → β)
    (hf : ∀ r c, f { r with final_caption := c } = f r)
    (data : List Record) (i : Nat) (text : String) :
    (setFinalCaption data i text).map f = data.map f := by
  unfold setFinalCaption
  split
  · next r hr =>
      refine map_set_eq_of_apply_eq _ _ _ _ fun b hb => ?_
      rw [hr] at hb
      cases hb
      exact hf r _
  · rfl

theorem get_record_index_lt (data : List Record) (idx : Int) (h : data ≠ []) :
    (get_record data idx).2.toNat < data.length := by
  have hlen : data.length ≠ 0 := fun hl => h (List.length_eq_zero.mp hl)
  simp only [get_record, if_neg h, clamp_index, if_neg hlen]
  omega

theorem nav_data_cases (d : Direction) (text : String) (idx : Int)
    (data : List Record) :
    (nav d text idx data).data = data
    ∨ (nav d text idx data).data
        = setFinalCaption data (get_record data idx).2.toNat text := by
  by_cases h : data = []
  · exact Or.inl (by simp [nav, h])
  · exact Or.inr (by simp [nav, h])

/-- Claim C9: neither loading the caption file nor any navigation action
modifies an existing raw_caption value or the image path of any record;
loading only fills a missing raw_caption with the empty string (so an
existing value maps to itself), and navigation leaves the image and
raw_caption columns of the whole dataset pointwise unchanged — only
final_caption is ever written. -/
theorem review_frame_conditions (d : Direction) (text : String) (idx : Int)
    (data : List Record) :
    (load_captions data).map Record.image = data.map Record.image
    ∧ (load_captions data).map Record.raw_caption
        = data.map (fun r => some (r.raw_caption.getD ""))
    ∧ (nav d text idx data).data.map Record.image = data.map Record.image
    ∧ (nav d text idx data).data.map Record.raw_caption
        = data.map Record.raw_caption := by
  refine ⟨?_, ?_, ?_, ?_⟩
  · simp [load_captions, loadItem]
  · simp [load_captions, loadItem]
  · rcases nav_data_cases d text idx data with h | h
    · rw [h]
    · rw [h]
      exact setFinalCaption_map Record.image (fun _ _ => rfl) data _ text
  · rcases nav_data_cases d text idx data with h | h
    · rw [h]
    · rw [h]
      exact setFinalCaption_map Record.raw_caption (fun _ _ => rfl) data _ text

/-- Witness for C9 at a concrete two-record dataset. -/
theorem review_frame_conditions_witness :
    (load_captions sampleData).map Record.image = sampleData.map Record.image
    ∧ (load_captions sampleData).map Record.raw_caption
        = sampleData.map (fun r => some (r.raw_caption.getD ""))
    ∧ (nav .prev "x" 1 sampleData).data.map Record.image
        = sampleData.map Record.image
    ∧ (nav .prev "x" 1 sampleData).data.map Record.raw_caption
        = sampleData.map Record.raw_caption :=
  review_frame_conditions .prev "x" 1 sampleData

/-- Claim C8: every navigation action (first, prev, next, last and end) on
a non-empty dataset first writes the stripped edit-box text into the
final_caption of the current record — the record at the clamped pre-move
index, the same for every direction — and then writes both files together:
the JSON holds the updated dataset and the CSV holds the header row image,
raw_caption, final_caption followed by exactly those three columns of every
record, in that order; only afterwards does the view index move. -/
theorem nav_persists_before_move (d : Direction) (text : String) (idx : Int)
    (data : List Record) (h : data ≠ []) :
    ∃ r : Record,
      data.get? (get_record data idx).2.toNat = some r
      ∧ (nav d text idx data).data
          = data.set (get_record data idx).2.toNat
              { r with final_caption := some text.trim }
      ∧ (nav d text idx data).saved
          = some ((nav d text idx data).data,
              ["image", "raw_caption", "final_caption"]
                :: (nav d text idx data).data.map fun row =>
                     [row.image.getD "", row.raw_caption.getD "",
                      row.final_caption.getD ""]) := by
  have hi : (get_record data idx).2.toNat < data.length :=
    get_record_index_lt data idx h
  obtain ⟨r, hr⟩ : ∃ r, data.get? (get_record data idx).2.toNat = some r :=
    ⟨_, List.get?_eq_get hi⟩
  refine ⟨r, hr, ?_, ?_⟩
  · simp only [nav, if_neg h, setFinalCaption, hr]
  · simp only [nav, if_neg h, save_files, csvHeader]
    rfl

/-- Witness for C8 at a concrete two-record dataset. -/
theorem nav_persists_before_move_witness :
    ∃ r : Record,
      sampleData.get? (get_record sampleData 0).2.toNat = some r
      ∧ (nav .next " hello " 0 sampleData).data
          = sampleData.set (get_record sampleData 0).2.toNat
              { r with final_caption := some " hello ".trim }
      ∧ (nav .next " hello " 0 sampleData).saved
          = some ((nav .next " hello " 0 sampleData).data,
              ["image", "raw_caption", "final_caption"]
                :: (nav .next " hello " 0 sampleData).data.map fun row =>
                     [row.image.getD "", row.raw_caption.getD "",
                      row.final_caption.getD ""]) :=
  nav_persists_before_move .next " hello " 0 sampleData (by simp [sampleData])

/-- Claim C10: index access in the review tool stays in bounds. On a
non-empty dataset clamp_index lands in [0, length - 1] for every integer
index, including negative ones and ones past the end; on an empty dataset
it returns 0; get_record on a non-empty dataset always yields a record (no
out-of-range access); navigating next at the last record stays at the last
record; and navigating prev at the first record stays at the first. -/
theorem review_index_safety (idx : Int) (text : String) (data : List Record)
    (h : data ≠ []) :
    (0 ≤ clamp_index idx data.length
      ∧ clamp_index idx data.length < (data.length : Int))
    ∧ (∀ j : Int, clamp_index j 0 = 0)
    ∧ (∃ r, (get_record data idx).1 = some r)
    ∧ (nav .next text ((data.length : Int) - 1) data).idx
        = (data.length : Int) - 1
    ∧ (nav .prev text 0 data).idx = 0 := by
  have hlen : data.length ≠ 0 := fun hl => h (List.length_eq_zero.mp hl)
  refine ⟨?_, ?_, ?_, ?_, ?_⟩
  · simp only [clamp_index, if_neg hlen]
    omega
  · intro j
    simp [clamp_index]
  · have hi : (get_record data idx).2.toNat < data.length :=
      get_record_index_lt data idx h
    refine ⟨data.get ⟨(get_record data idx).2.toNat, hi⟩, ?_⟩
    have hfst : (get_record data idx).1
        = data.get? (get_record data idx).2.toNat := by
      simp [get_record, if_neg h]
    rw [hfst]
    exact List.get?_eq_get hi
  · simp only [nav, if_neg h, get_record, setFinalCaption_length,
      clamp_index, if_neg hlen]
    omega
  · simp only [nav, if_neg h, get_record, setFinalCaption_length,
      clamp_index, if_neg hlen]
    omega

/-- Witness for C10 at a concrete two-record dataset and index -5. -/
theorem review_index_safety_witness :
    (0 ≤ clamp_index (-5) sampleData.length
      ∧ clamp_index (-5) sampleData.length < (sampleData.length : Int))
    ∧ (∀ j : Int, clamp_index j 0 = 0)
    ∧ (∃ r, (get_record sampleData (-5)).1 = some r)
    ∧ (nav .next "t" ((sampleData.length : Int) - 1) sampleData).idx
        = (sampleData.length : Int) - 1
    ∧ (nav .prev "t" 0 sampleData).idx = 0 :=
  review_index_safety (-5) "t" sampleData (by simp [sampleData])

end ReviewUI
